import Mathlib

/-!
# Verification of the nff-go NAT translation engine

Shallow embedding of `examples/nat/translation.go` from developgo/nff-go.

Modelling conventions:
* Timestamps are `Nat` ticks; `time.Since(t)` at instant `now` is `now - t`
  (truncated `Nat` subtraction, which matches the Go semantics of the
  comparisons involved: a `lastused` in the future makes `time.Since`
  negative, hence `≤ timeout` and not `> timeout`).
* IPv4 addresses, MAC addresses, ports, protocol numbers and TCP flags are
  `Nat`.  Header fields are kept in host byte order throughout, so the
  `packet.SwapBytesUint32/16` conversions of the Go code (network ↔ host
  order) are identities in the model.
* The `sync.Map` translation tables and the per-protocol `portmap` arrays are
  modelled as association lists keyed by (protocol, key); a store conses the
  new binding (latest binding wins on lookup), a delete removes every binding
  of the key.
* Diagnostic side effects (`dumpPacket`, `println` warnings) have no effect on
  translation state and are not modelled; locally generated packets
  (`SendPacket`) are collected in an `emitted` list.
-/

set_option autoImplicit false

namespace NffNat

/-- Tuple is a pair of address and port (`translation.go`). -/
structure Tuple where
  addr : Nat
  port : Nat
  deriving DecidableEq, Repr

/-- Modelled from the spec: the per-(protocol, public port) record `portMapEntry`
(`PortState` in the spec) is declared outside `src/`; its fields are read and
written field-by-field in `translation.go`: `last_used`, `owner_address`,
`fin_count`, `termination_direction`, `is_static`. -/
structure portMapEntry where
  lastused : Nat
  addr : Nat
  finCount : Nat
  terminationDirection : Nat
  static : Bool
  deriving DecidableEq, Repr

/-- The Go zero value `portMapEntry{}`. -/
def portMapEntry.empty : portMapEntry :=
  { lastused := 0, addr := 0, finCount := 0, terminationDirection := 0, static := false }

instance : Inhabited portMapEntry := ⟨portMapEntry.empty⟩

/-- A per-pair translation table: `translationTable[protocol].Load/Store/Delete`
on `Tuple` keys, modelled as an association list keyed by (protocol, key). -/
def TransTable := List ((Nat × Tuple) × Tuple)

instance : DecidableEq TransTable := by unfold TransTable; infer_instance

/-- `translationTable[protocol].Load(key)`. -/
def tableLoad (t : TransTable) (protocol : Nat) (key : Tuple) : Option Tuple :=
  (t.find? (fun e => e.1 = (protocol, key))).map (·.2)

/-- `translationTable[protocol].Store(key, v)` (overwrite semantics: the newest
binding is found first). -/
def tableStore (t : TransTable) (protocol : Nat) (key v : Tuple) : TransTable :=
  ((protocol, key), v) :: t

/-- `translationTable[protocol].Delete(key)`. -/
def tableDelete (t : TransTable) (protocol : Nat) (key : Tuple) : TransTable :=
  t.filter (fun e => ¬ (e.1 = (protocol, key)))

/-- The public port map `portmap[protocol][port]`, modelled as an association
list over (protocol, port); absent slots read as the zero `portMapEntry`. -/
def Portmap := List ((Nat × Nat) × portMapEntry)

instance : DecidableEq Portmap := by unfold Portmap; infer_instance

/-- Read `portmap[protocol][port]` (Go arrays are fully populated with zero
values, so a missing slot reads as `portMapEntry.empty`). -/
def pmGet (pm : Portmap) (protocol port : Nat) : portMapEntry :=
  ((pm.find? (fun e => e.1 = (protocol, port))).map (·.2)).getD portMapEntry.empty

/-- Write `portmap[protocol][port] = e`. -/
def pmSet (pm : Portmap) (protocol port : Nat) (e : portMapEntry) : Portmap :=
  ((protocol, port), e) :: pm

/-- A per-attachment-point ARP cache `arpTable : ip → mac`. -/
def ArpTable := List (Nat × Nat)

instance : DecidableEq ArpTable := by unfold ArpTable; infer_instance

/-- `arpTable.Load(ip)`. -/
def arpLoad (t : ArpTable) (ip : Nat) : Option Nat :=
  (t.find? (fun e => e.1 = ip)).map (·.2)

/-- `arpTable.Store(ip, mac)`. -/
def arpStore (t : ArpTable) (ip mac : Nat) : ArpTable :=
  (ip, mac) :: t

/-- Packet dispositions returned by the translation functions
(`dirSEND`, `dirDROP`, `dirKNI` of the nat example). -/
inductive Dir where
  | SEND
  | DROP
  | KNI
  deriving DecidableEq, Repr

abbrev dirSEND : Dir := Dir.SEND
abbrev dirDROP : Dir := Dir.DROP
abbrev dirKNI : Dir := Dir.KNI

/-- Modelled from the spec: protocol numbers `common.TCPNumber`,
`common.UDPNumber`, `common.ICMPNumber` (the `common` package is outside
`src/`); these are the standard IPv4 protocol numbers. -/
def TCPNumber : Nat := 6
def UDPNumber : Nat := 17
def ICMPNumber : Nat := 1

/-- Modelled from the spec: TCP flag masks `common.TCPFlagFin`,
`common.TCPFlagRst`, `common.TCPFlagAck` (outside `src/`); standard TCP
header flag bits. -/
def TCPFlagFin : Nat := 0x01
def TCPFlagRst : Nat := 0x04
def TCPFlagAck : Nat := 0x10

/-- Modelled from the spec: ICMP message types `common.ICMPTypeEchoRequest`
and `common.ICMPTypeEchoResponse` (outside `src/`); standard ICMP types. -/
def ICMPTypeEchoRequest : Nat := 8
def ICMPTypeEchoResponse : Nat := 0

/-- Modelled from the spec: ARP operation codes `packet.ARPRequest` and
`packet.ARPReply` (outside `src/`); standard ARP opcodes. -/
def ARPRequest : Nat := 1
def ARPReply : Nat := 2

/-- Modelled from the spec: the two `terminationDirection` constants
(`pri2pub`, `pub2pri`) are declared outside `src/`; the spec records that the
direction is a small integer whose bitwise complement denotes the opposite
direction, so the two values are complementary `uint8` constants. -/
def pri2pub : Nat := 0x0f
def pub2pri : Nat := 0xf0

/-- The Go `^dir` on the `uint8`-backed `terminationDirection`. -/
def dirComplement (d : Nat) : Nat := d ^^^ 0xff

/-- L4 payload view after `ParseAllKnownL4ForIPv4`: at most one of the
TCP/UDP/ICMP header pointers is non-nil; `unknown` stands for all three
being nil. -/
inductive L4 where
  | tcp (srcPort dstPort flags : Nat)
  | udp (srcPort dstPort : Nat)
  | icmp (icmpType code identifier : Nat)
  | unknown
  deriving DecidableEq, Repr

/-- L3 view of a packet: IPv4 with its L4 payload, ARP, or unsupported. -/
inductive L3 where
  | ipv4 (srcAddr dstAddr protocol : Nat) (l4 : L4)
  | arp (operation sha spa : Nat) (tha : Nat) (tpa : Nat)
  | other
  deriving DecidableEq, Repr

/-- A packet as seen by the engine: Ethernet addresses, optional VLAN tag,
parsed L3 view, and a flag recording that L3/L4 checksums have been
recomputed after the last header mutation. -/
structure Packet where
  etherSrc : Nat
  etherDst : Nat
  vlan : Option Nat
  l3 : L3
  checksumFresh : Bool
  deriving DecidableEq, Repr

/-- Mutable state of one attachment point (`ipv4Port`): its translation
table, port map and ARP cache.  Only the public side's `portmap` is ever
populated, but the field exists on both, as in the Go struct. -/
structure Ipv4PortState where
  translationTable : TransTable
  portmap : Portmap
  arpTable : ArpTable
  deriving DecidableEq

/-- Mutable state of a `portPair`: its two attachment points. -/
structure PortPairState where
  PublicPort : Ipv4PortState
  PrivatePort : Ipv4PortState
  deriving DecidableEq

/-- Static configuration of one attachment point: subnet address, MAC, VLAN
id and whether a kernel (KNI) fallback interface is configured
(`KNIName != ""`). -/
structure PortConfig where
  subnetAddr : Nat
  srcMACAddress : Nat
  vlan : Nat
  hasKNI : Bool
  deriving DecidableEq, Repr

/-- Modelled from the spec: the global constants `connectionTimeout` and
`portReuseTimeout` and the allocatable port range come from configuration
outside `src/`. -/
structure NatConfig where
  connectionTimeout : Nat
  portReuseTimeout : Nat
  portStart : Nat
  portEnd : Nat
  deriving DecidableEq, Repr

/-- Static configuration of a `portPair`: its two attachment points. -/
structure PairConfig where
  PublicPort : PortConfig
  PrivatePort : PortConfig
  deriving DecidableEq, Repr

/-- Modelled from the spec: `deleteOldConnection` (outside `src/`, §4.2
`remove`) deletes, for the given protocol and public port, both the
public→private and the private→public translation entries associated with
that port and frees the PortState slot (resets it to the zero value). -/
def deleteOldConnection (s : PortPairState) (protocol port : Nat) : PortPairState :=
  match tableLoad s.PublicPort.translationTable protocol
      ⟨(pmGet s.PublicPort.portmap protocol port).addr, port⟩ with
  | some priKey =>
      { PublicPort := { s.PublicPort with
          translationTable := tableDelete s.PublicPort.translationTable protocol
            ⟨(pmGet s.PublicPort.portmap protocol port).addr, port⟩,
          portmap := pmSet s.PublicPort.portmap protocol port portMapEntry.empty },
        PrivatePort := { s.PrivatePort with
          translationTable := tableDelete s.PrivatePort.translationTable protocol priKey } }
  | Option.none =>
      { s with PublicPort := { s.PublicPort with
          portmap := pmSet s.PublicPort.portmap protocol port portMapEntry.empty } }

/-- Modelled from the spec: the allocator's notion of a free port (§4.1,
§5 "delayed port reuse ... checked lazily on next access"): a port is
available for a new allocation when it is not static and has been idle for
longer than `connectionTimeout` (so a `lastused` pushed into the future by
`portReuseTimeout - connectionTimeout` keeps it unavailable until
`portReuseTimeout` has elapsed). -/
def portIsFree (cfg : NatConfig) (pm : Portmap) (protocol port now : Nat) : Bool :=
  let e := pmGet pm protocol port
  !e.static && decide (cfg.connectionTimeout < now - e.lastused)

/-- Modelled from the spec: `allocNewPort` (outside `src/`, §4.1) selects the
lowest-numbered free port in the configured range for the protocol and
returns none on pool exhaustion, with no state change on failure. -/
def allocNewPort (cfg : NatConfig) (pm : Portmap) (protocol now : Nat) : Option Nat :=
  (List.range' cfg.portStart (cfg.portEnd - cfg.portStart)).find?
    (fun p => portIsFree cfg pm protocol p now)

/-- `allocateNewEgressConnection` (`translation.go` lines 21-50): allocate a
public port, record its `portMapEntry`, and store both translation
directions; returns the public entry, or none when allocation failed (in
which case the state is returned unchanged). -/
def allocateNewEgressConnection (cfg : NatConfig) (pubAddr : Nat) (s : PortPairState)
    (protocol : Nat) (privEntry : Tuple) (now : Nat) : Option Tuple × PortPairState :=
  match allocNewPort cfg s.PublicPort.portmap protocol now with
  | Option.none => (Option.none, s)
  | some port =>
    let pubEntry : Tuple := ⟨pubAddr, port⟩
    let s1 := { s with PublicPort := { s.PublicPort with
        portmap := pmSet s.PublicPort.portmap protocol port
          { lastused := now, addr := pubAddr, finCount := 0,
            terminationDirection := 0, static := false } } }
    let s2 := { s1 with
        PublicPort := { s1.PublicPort with
          translationTable := tableStore s1.PublicPort.translationTable protocol pubEntry privEntry },
        PrivatePort := { s1.PrivatePort with
          translationTable := tableStore s1.PrivatePort.translationTable protocol privEntry pubEntry } }
    (some pubEntry, s2)

/-- Write one `portmap` slot of the public port. -/
def setPubPm (s : PortPairState) (protocol port : Nat) (e : portMapEntry) : PortPairState :=
  { s with PublicPort := { s.PublicPort with
      portmap := pmSet s.PublicPort.portmap protocol port e } }

/-- `checkTCPTermination` (`translation.go` lines 283-318): FIN is checked
first, then RST, then ACK; the ACK teardown writes `lastused` through a
pointer into the slot that `deleteOldConnection` has just cleared. -/
def checkTCPTermination (cfg : NatConfig) (s : PortPairState)
    (flags port dir now : Nat) : PortPairState :=
  if flags &&& TCPFlagFin ≠ 0 then
    if (pmGet s.PublicPort.portmap TCPNumber port).finCount = 0 then
      setPubPm s TCPNumber port
        { pmGet s.PublicPort.portmap TCPNumber port with
          finCount := 1, terminationDirection := dir }
    else if (pmGet s.PublicPort.portmap TCPNumber port).finCount = 1 ∧
        (pmGet s.PublicPort.portmap TCPNumber port).terminationDirection = dirComplement dir then
      setPubPm s TCPNumber port
        { pmGet s.PublicPort.portmap TCPNumber port with finCount := 2 }
    else s
  else if flags &&& TCPFlagRst ≠ 0 then
    deleteOldConnection s TCPNumber port
  else if flags &&& TCPFlagAck ≠ 0 then
    if (pmGet s.PublicPort.portmap TCPNumber port).finCount = 2 then
      setPubPm (deleteOldConnection s TCPNumber port) TCPNumber port
        { pmGet (deleteOldConnection s TCPNumber port).PublicPort.portmap TCPNumber port with
          lastused := now + (cfg.portReuseTimeout - cfg.connectionTimeout) }
    else s
  else s

/-- Modelled from the spec: `packet.InitARPReplyPacket` (outside `src/`, §4.5)
builds an ARP reply whose sender fields are this host's MAC and the requested
protocol address, and whose target fields are the requester's; Ethernet
source/destination are set accordingly. -/
def InitARPReplyPacket (sha tha spa tpa : Nat) : Packet :=
  { etherSrc := sha, etherDst := tha, vlan := Option.none,
    l3 := L3.arp ARPReply sha spa tha tpa, checksumFresh := true }

/-- Modelled from the spec: `packet.InitARPRequestPacket` (outside `src/`,
§4.5) builds a broadcast ARP request from this host's MAC and protocol
address toward the unresolved protocol address. -/
def InitARPRequestPacket (sha spa tpa : Nat) : Packet :=
  { etherSrc := sha, etherDst := 0xffffffffffff, vlan := Option.none,
    l3 := L3.arp ARPRequest sha spa 0 tpa, checksumFresh := true }

/-- `sendARPRequest` (`translation.go` lines 397-412): build and emit an ARP
request for `ip`, tagging it with this port's VLAN when one is configured. -/
def sendARPRequest (c : PortConfig) (ip : Nat) : Packet :=
  let req := InitARPRequestPacket c.srcMACAddress c.subnetAddr ip
  if c.vlan ≠ 0 then { req with vlan := some c.vlan } else req

/-- `getMACForIP` (`translation.go` lines 388-395): ARP-cache lookup; on a
miss an ARP request is emitted and no MAC is returned. -/
def getMACForIP (c : PortConfig) (ps : Ipv4PortState) (ip : Nat) :
    Option Nat × List Packet :=
  match arpLoad ps.arpTable ip with
  | some mac => (some mac, [])
  | Option.none => (Option.none, [sendARPRequest c ip])

/-- `handleARP` (`translation.go` lines 337-386).  Returns the disposition,
the (possibly updated) ARP cache of this port, and the emitted packets. -/
def handleARP (c : PortConfig) (ps : Ipv4PortState) (pkt : Packet) :
    Dir × ArpTable × List Packet :=
  match pkt.l3 with
  | L3.arp op sha spa tha tpa =>
    if op ≠ ARPRequest then
      let arpT := if op = ARPReply then arpStore ps.arpTable spa sha else ps.arpTable
      if c.hasKNI then (dirKNI, arpT, []) else (dirDROP, arpT, [])
    else if c.hasKNI then
      (dirKNI, ps.arpTable, [])
    else if tpa ≠ c.subnetAddr then
      (dirDROP, ps.arpTable, [])
    else if tha ≠ 0 then
      (dirDROP, ps.arpTable, [])
    else
      let answer := InitARPReplyPacket c.srcMACAddress sha tpa spa
      let answer := { answer with vlan := pkt.vlan }
      (dirDROP, ps.arpTable, [answer])
  | _ => (dirSEND, ps.arpTable, [])

/-- Modelled from the spec: `swapAddrIPv4` (outside `src/`, §4.6) swaps the
source/destination addressing (Ethernet and IPv4) of a packet. -/
def swapAddrIPv4 (pkt : Packet) : Packet :=
  match pkt.l3 with
  | L3.ipv4 src dst protocol l4 =>
      { pkt with
        etherSrc := pkt.etherDst,
        etherDst := pkt.etherSrc,
        l3 := L3.ipv4 dst src protocol l4 }
  | _ => pkt

/-- The KNI-redirect condition of `handleICMP` (`translation.go` lines
425-434): a kernel interface is configured, the ingress key is non-nil, and
the key has no live, fresh ICMP translation entry. -/
def icmpToKni (cfg : NatConfig) (c : PortConfig) (ps : Ipv4PortState)
    (key : Option Tuple) (now : Nat) : Bool :=
  c.hasKNI &&
    match key with
    | some k =>
        decide (tableLoad ps.translationTable ICMPNumber k = Option.none) ||
          decide (cfg.connectionTimeout < now - (pmGet ps.portmap ICMPNumber k.port).lastused)
    | Option.none => false

/-- `handleICMP` (`translation.go` lines 414-460).  `key` is non-nil on the
ingress path only.  Returns the disposition and the emitted packets; the
function does not mutate translation state. -/
def handleICMP (cfg : NatConfig) (c : PortConfig) (ps : Ipv4PortState)
    (pkt : Packet) (key : Option Tuple) (now : Nat) : Dir × List Packet :=
  match pkt.l3 with
  | L3.ipv4 _ dstAddr _ (L4.icmp icmpType code _identifier) =>
    if dstAddr ≠ c.subnetAddr then (dirSEND, [])
    else
      if icmpToKni cfg c ps key now then (dirKNI, [])
      else if icmpType ≠ ICMPTypeEchoRequest ∨ code ≠ 0 then (dirSEND, [])
      else
        let answer := swapAddrIPv4 pkt
        let answer :=
          match answer.l3 with
          | L3.ipv4 src dst protocol (L4.icmp _ cd id) =>
              { answer with
                l3 := L3.ipv4 src dst protocol (L4.icmp ICMPTypeEchoResponse cd id),
                checksumFresh := true }
          | _ => answer
        (dirDROP, [answer])
  | _ => (dirSEND, [])

/-- Outcome of `parsePacketAndCheckARP` (`translation.go` lines 320-335):
either the packet is IPv4 and translation proceeds with its header fields, or
the packet has been fully handled (ARP or unsupported). -/
inductive ParseResult where
  | ipv4Pkt (srcAddr dstAddr protocol : Nat) (l4 : L4)
  | handled (dir : Dir) (arpTable : ArpTable) (emitted : List Packet)
  deriving DecidableEq

/-- `parsePacketAndCheckARP` (`translation.go` lines 320-335). -/
def parsePacketAndCheckARP (c : PortConfig) (ps : Ipv4PortState) (pkt : Packet) :
    ParseResult :=
  match pkt.l3 with
  | L3.ipv4 src dst protocol l4 => ParseResult.ipv4Pkt src dst protocol l4
  | L3.arp .. =>
      let (dir, arpT, em) := handleARP c ps pkt
      ParseResult.handled dir arpT em
  | L3.other => ParseResult.handled dirDROP ps.arpTable []

/-- `generateLookupKeyFromDstAndHandleICMP` (`translation.go` lines 205-227):
key from the packet destination; for ICMP the self-addressed check runs with
the key already built. -/
def generateLookupKeyFromDstAndHandleICMP (cfg : NatConfig) (c : PortConfig)
    (ps : Ipv4PortState) (pkt : Packet) (dstAddr : Nat) (l4 : L4) (now : Nat) :
    Option Tuple × Dir × List Packet :=
  match l4 with
  | L4.tcp _ dstPort _ => (some ⟨dstAddr, dstPort⟩, dirSEND, [])
  | L4.udp _ dstPort => (some ⟨dstAddr, dstPort⟩, dirSEND, [])
  | L4.icmp _ _ identifier =>
      let key : Tuple := ⟨dstAddr, identifier⟩
      let (dir, em) := handleICMP cfg c ps pkt (some key) now
      if dir ≠ dirSEND then (Option.none, dir, em) else (some key, dirSEND, em)
  | L4.unknown => (Option.none, dirDROP, [])

/-- `generateLookupKeyFromSrcAndHandleICMP` (`translation.go` lines 230-254):
key from the packet source; for ICMP the self-addressed check runs with a nil
key. -/
def generateLookupKeyFromSrcAndHandleICMP (cfg : NatConfig) (c : PortConfig)
    (ps : Ipv4PortState) (pkt : Packet) (srcAddr : Nat) (l4 : L4) (now : Nat) :
    Option Tuple × Dir × List Packet :=
  match l4 with
  | L4.tcp srcPort _ _ => (some ⟨srcAddr, srcPort⟩, dirSEND, [])
  | L4.udp srcPort _ => (some ⟨srcAddr, srcPort⟩, dirSEND, [])
  | L4.icmp _ _ identifier =>
      let (dir, em) := handleICMP cfg c ps pkt Option.none now
      if dir ≠ dirSEND then (Option.none, dir, em)
      else (some ⟨srcAddr, identifier⟩, dirSEND, em)
  | L4.unknown => (Option.none, dirDROP, [])

/-- `setPacketDstPort` (`translation.go` lines 256-267) on the L4 view. -/
def setL4DstPort (l4 : L4) (port : Nat) : L4 :=
  match l4 with
  | L4.tcp src _ flags => L4.tcp src port flags
  | L4.udp src _ => L4.udp src port
  | L4.icmp icmpType code _ => L4.icmp icmpType code port
  | L4.unknown => L4.unknown

/-- `setPacketSrcPort` (`translation.go` lines 269-280) on the L4 view. -/
def setL4SrcPort (l4 : L4) (port : Nat) : L4 :=
  match l4 with
  | L4.tcp _ dst flags => L4.tcp port dst flags
  | L4.udp _ dst => L4.udp port dst
  | L4.icmp icmpType code _ => L4.icmp icmpType code port
  | L4.unknown => L4.unknown

/-- TCP flags of the L4 view (`pktTCP.TCPFlags`; 0 when not TCP). -/
def tcpFlags (l4 : L4) : Nat :=
  match l4 with
  | L4.tcp _ _ flags => flags
  | _ => 0

/-- Result of one translation call: the returned disposition, the state after
the call, the (possibly rewritten) input packet, and locally generated
packets that were sent. -/
structure TransResult where
  dir : Dir
  state : PortPairState
  pkt : Packet
  emitted : List Packet
  deriving DecidableEq

/-- Lines 99-124 of `PublicToPrivateTranslation`: the processing applied to a
hit that has passed the aging gate (state `s` already carries the refreshed
`lastused`): TCP termination tracking, ARP resolution on the private side,
and the header rewrite. -/
def ingressTranslatePart (cfg : NatConfig) (pc : PairConfig) (s : PortPairState)
    (pkt : Packet) (srcAddr protocol : Nat) (l4 : L4) (key value : Tuple)
    (now : Nat) : TransResult :=
  if value.addr ≠ 0 then
    let s2 :=
      if protocol = TCPNumber then
        checkTCPTermination cfg s (tcpFlags l4) key.port pub2pri now
      else s
    match getMACForIP pc.PrivatePort s2.PrivatePort value.addr with
    | (Option.none, em) => ⟨dirDROP, s2, pkt, em⟩
    | (some mac, _) =>
        let pkt1 := { pkt with
          etherDst := mac,
          etherSrc := pc.PublicPort.srcMACAddress,
          vlan := pkt.vlan.map (fun _ => pc.PrivatePort.vlan),
          l3 := L3.ipv4 srcAddr value.addr protocol (setL4DstPort l4 value.port),
          checksumFresh := true }
        ⟨dirSEND, s2, pkt1, []⟩
  else ⟨dirKNI, s, pkt, []⟩

/-- `PublicToPrivateTranslation` (`translation.go` lines 52-125): ingress
translation on the public attachment point. -/
def PublicToPrivateTranslation (cfg : NatConfig) (pc : PairConfig)
    (s : PortPairState) (pkt : Packet) (now : Nat) : TransResult :=
  let c := pc.PublicPort
  match parsePacketAndCheckARP c s.PublicPort pkt with
  | ParseResult.handled dir arpT em =>
      ⟨dir, { s with PublicPort := { s.PublicPort with arpTable := arpT } }, pkt, em⟩
  | ParseResult.ipv4Pkt srcAddr dstAddr protocol l4 =>
    match generateLookupKeyFromDstAndHandleICMP cfg c s.PublicPort pkt dstAddr l4 now with
    | (Option.none, dir, em) => ⟨dir, s, pkt, em⟩
    | (some key, _, em) =>
      match tableLoad s.PublicPort.translationTable protocol key with
      | Option.none => ⟨dirDROP, s, pkt, em⟩
      | some value =>
        let e := pmGet s.PublicPort.portmap protocol key.port
        if e.static || decide (now - e.lastused ≤ cfg.connectionTimeout) then
          let s1 := setPubPm s protocol key.port { e with lastused := now }
          ingressTranslatePart cfg pc s1 pkt srcAddr protocol l4 key value now
        else
          ⟨dirDROP, deleteOldConnection s protocol key.port, pkt, em⟩

/-- Lines 176-201 of `PrivateToPublicTranslation`: the processing applied
once a public pair `value` is known (from a hit or a fresh allocation): TCP
termination tracking, ARP resolution on the public side, and the header
rewrite. -/
def egressTranslatePart (cfg : NatConfig) (pc : PairConfig) (s : PortPairState)
    (pkt : Packet) (dstAddr protocol : Nat) (l4 : L4) (value : Tuple)
    (now : Nat) : TransResult :=
  if value.addr ≠ 0 then
    let s2 :=
      match l4 with
      | L4.tcp _ _ flags => checkTCPTermination cfg s flags value.port pri2pub now
      | _ => s
    match getMACForIP pc.PublicPort s2.PublicPort dstAddr with
    | (Option.none, em) => ⟨dirDROP, s2, pkt, em⟩
    | (some mac, _) =>
        let pkt1 := { pkt with
          etherDst := mac,
          etherSrc := pc.PrivatePort.srcMACAddress,
          vlan := pkt.vlan.map (fun _ => pc.PublicPort.vlan),
          l3 := L3.ipv4 value.addr dstAddr protocol (setL4SrcPort l4 value.port),
          checksumFresh := true }
        ⟨dirSEND, s2, pkt1, []⟩
  else ⟨dirKNI, s, pkt, []⟩

/-- `PrivateToPublicTranslation` (`translation.go` lines 127-202): egress
translation on the private attachment point. -/
def PrivateToPublicTranslation (cfg : NatConfig) (pc : PairConfig)
    (s : PortPairState) (pkt : Packet) (now : Nat) : TransResult :=
  let c := pc.PrivatePort
  match parsePacketAndCheckARP c s.PrivatePort pkt with
  | ParseResult.handled dir arpT em =>
      ⟨dir, { s with PrivatePort := { s.PrivatePort with arpTable := arpT } }, pkt, em⟩
  | ParseResult.ipv4Pkt srcAddr dstAddr protocol l4 =>
    match generateLookupKeyFromSrcAndHandleICMP cfg c s.PrivatePort pkt srcAddr l4 now with
    | (Option.none, dir, em) => ⟨dir, s, pkt, em⟩
    | (some key, _, em) =>
      if c.hasKNI && decide (c.subnetAddr = dstAddr) then ⟨dirKNI, s, pkt, em⟩
      else
        match tableLoad s.PrivatePort.translationTable protocol key with
        | Option.none =>
            let sArp := { s with PrivatePort := { s.PrivatePort with
                arpTable := arpStore s.PrivatePort.arpTable key.addr pkt.etherSrc } }
            match allocateNewEgressConnection cfg pc.PublicPort.subnetAddr sArp protocol key now with
            | (Option.none, sFail) => ⟨dirDROP, sFail, pkt, em⟩
            | (some value, sNew) =>
                egressTranslatePart cfg pc sNew pkt dstAddr protocol l4 value now
        | some value =>
            let e := pmGet s.PublicPort.portmap protocol value.port
            let s1 := setPubPm s protocol value.port { e with lastused := now }
            egressTranslatePart cfg pc s1 pkt dstAddr protocol l4 value now

/-- The lookup key that ingress translation builds from a packet
(`generateLookupKeyFromDstAndHandleICMP` lines 206-217, before the ICMP
self-addressed check may preempt it): destination address with destination
port (ICMP: identifier); none when no L4 header was parsed. -/
def ingressKeyOf (dstAddr : Nat) (l4 : L4) : Option Tuple :=
  match l4 with
  | L4.tcp _ dstPort _ => some ⟨dstAddr, dstPort⟩
  | L4.udp _ dstPort => some ⟨dstAddr, dstPort⟩
  | L4.icmp _ _ identifier => some ⟨dstAddr, identifier⟩
  | L4.unknown => Option.none

/-- The lookup key that egress translation builds from a packet
(`generateLookupKeyFromSrcAndHandleICMP` lines 231-248): source address with
source port (ICMP: identifier); none when no L4 header was parsed. -/
def egressKeyOf (srcAddr : Nat) (l4 : L4) : Option Tuple :=
  match l4 with
  | L4.tcp srcPort _ _ => some ⟨srcAddr, srcPort⟩
  | L4.udp srcPort _ => some ⟨srcAddr, srcPort⟩
  | L4.icmp _ _ identifier => some ⟨srcAddr, identifier⟩
  | L4.unknown => Option.none

/-! ### Concrete fixtures

A small configured pair and an established TCP flow
private 50:4000 ↔ public 203:1024, used by the witnesses and
counterexamples below. -/

/-- Fixture: timeouts 100/600, allocatable ports 1024 and 1025. -/
def cfg0 : NatConfig :=
  { connectionTimeout := 100, portReuseTimeout := 600, portStart := 1024, portEnd := 1026 }

/-- Fixture: public attachment point at address 203, MAC 11, no KNI. -/
def pubCfg0 : PortConfig :=
  { subnetAddr := 203, srcMACAddress := 11, vlan := 0, hasKNI := false }

/-- Fixture: private attachment point at address 10, MAC 12, no KNI. -/
def priCfg0 : PortConfig :=
  { subnetAddr := 10, srcMACAddress := 12, vlan := 0, hasKNI := false }

/-- Fixture: pair with no KNI anywhere. -/
def pairCfg0 : PairConfig := ⟨pubCfg0, priCfg0⟩

/-- Fixture: pair whose public side has a KNI interface. -/
def pairCfgPubKni : PairConfig := ⟨{ pubCfg0 with hasKNI := true }, priCfg0⟩

/-- Fixture: pair whose private side has a KNI interface. -/
def pairCfgPriKni : PairConfig := ⟨pubCfg0, { priCfg0 with hasKNI := true }⟩

/-- Fixture: port-map entry of the established flow (allocated at tick 1000). -/
def pme0 : portMapEntry :=
  { lastused := 1000, addr := 203, finCount := 0, terminationDirection := 0, static := false }

/-- Fixture: state with the flow private 50:4000 ↔ public 203:1024 (TCP)
established at tick 1000; the public ARP cache knows host 99 (MAC 77) and
the private ARP cache knows host 50 (MAC 55). -/
def st0 : PortPairState :=
  { PublicPort :=
      { translationTable := [((6, ⟨203, 1024⟩), ⟨50, 4000⟩)],
        portmap := [((6, 1024), pme0)],
        arpTable := [(99, 77)] },
    PrivatePort :=
      { translationTable := [((6, ⟨50, 4000⟩), ⟨203, 1024⟩)],
        portmap := [],
        arpTable := [(50, 55)] } }

/-- Fixture: ingress TCP packet 99:80 → 203:1024 (ACK only). -/
def pktTcpIngress : Packet :=
  { etherSrc := 1,
    etherDst := 2,
    vlan := Option.none,
    l3 := L3.ipv4 99 203 6 (L4.tcp 80 1024 0x10),
    checksumFresh := true }

/-- Fixture: ingress TCP packet 99:80 → 203:2000 (unbound public port). -/
def pktTcpIngressMiss : Packet :=
  { etherSrc := 1,
    etherDst := 2,
    vlan := Option.none,
    l3 := L3.ipv4 99 203 6 (L4.tcp 80 2000 0x10),
    checksumFresh := true }

/-- Fixture: egress TCP packet 50:4000 → 99:80 (ACK only). -/
def pktTcpEgress : Packet :=
  { etherSrc := 55,
    etherDst := 2,
    vlan := Option.none,
    l3 := L3.ipv4 50 99 6 (L4.tcp 4000 80 0x10),
    checksumFresh := true }

/-- Fixture: ingress ICMP echo request 99 → 203 with identifier 7777. -/
def pktIcmpToPub : Packet :=
  { etherSrc := 1,
    etherDst := 2,
    vlan := Option.none,
    l3 := L3.ipv4 99 203 1 (L4.icmp 8 0 7777),
    checksumFresh := true }

/-- Fixture: egress ICMP echo request 50 → 10 (the private interface). -/
def pktIcmpToPri : Packet :=
  { etherSrc := 55,
    etherDst := 2,
    vlan := Option.none,
    l3 := L3.ipv4 50 10 1 (L4.icmp 8 0 7777),
    checksumFresh := true }

/-- Fixture: egress TCP packet 50:4000 → 10 (the private interface). -/
def pktTcpToPri : Packet :=
  { etherSrc := 55,
    etherDst := 2,
    vlan := Option.none,
    l3 := L3.ipv4 50 10 6 (L4.tcp 4000 80 0x10),
    checksumFresh := true }

/-- Fixture: egress TCP SYN from a new private host 51:5000 → 99:80. -/
def pktTcpNewFlow : Packet :=
  { etherSrc := 66,
    etherDst := 2,
    vlan := Option.none,
    l3 := L3.ipv4 51 99 6 (L4.tcp 5000 80 0x02),
    checksumFresh := true }

/-- Fixture: ARP request for 203 from host 99 (MAC 3), blank target MAC. -/
def pktArpReq : Packet :=
  { etherSrc := 3,
    etherDst := 0xffffffffffff,
    vlan := Option.none,
    l3 := L3.arp 1 3 99 0 203,
    checksumFresh := true }

/-- Fixture: configuration whose port pool is empty (exhaustion). -/
def cfgExhausted : NatConfig := { cfg0 with portEnd := 1024 }

/-- Fixture: `st0` after both FIN directions were seen on port 1024. -/
def stFin2 : PortPairState :=
  setPubPm st0 TCPNumber 1024 { pme0 with finCount := 2 }

/-! ### Helper lemmas on the container operations -/

theorem pmGet_pmSet_same (pm : Portmap) (protocol port : Nat) (e : portMapEntry) :
    pmGet (pmSet pm protocol port e) protocol port = e := by
  simp [pmGet, pmSet, List.find?]

theorem tableLoad_tableDelete_same (t : TransTable) (protocol : Nat) (key : Tuple) :
    tableLoad (tableDelete t protocol key) protocol key = Option.none := by
  have h : (tableDelete t protocol key).find?
      (fun e => decide (e.1 = (protocol, key))) = Option.none := by
    rw [List.find?_eq_none]
    intro x hx
    have hmem := List.of_mem_filter hx
    simpa using hmem
  unfold tableLoad
  rw [h]
  rfl

theorem deleteOldConnection_pmGet (s : PortPairState) (protocol port : Nat) :
    pmGet (deleteOldConnection s protocol port).PublicPort.portmap protocol port =
      portMapEntry.empty := by
  unfold deleteOldConnection
  split <;> simp [pmGet_pmSet_same]

/-- `deleteOldConnection` leaves no public→private entry for the port. -/
theorem deleteOldConnection_pub_load (s : PortPairState) (protocol port : Nat) :
    tableLoad (deleteOldConnection s protocol port).PublicPort.translationTable protocol
      ⟨(pmGet s.PublicPort.portmap protocol port).addr, port⟩ = Option.none := by
  unfold deleteOldConnection
  split
  case h_1 priKey heq => simpa using tableLoad_tableDelete_same _ protocol _
  case h_2 heq => simpa using heq

/-- `deleteOldConnection` also removes the reverse (private→public) entry. -/
theorem deleteOldConnection_pri_load (s : PortPairState) (protocol port : Nat)
    (priKey : Tuple)
    (h : tableLoad s.PublicPort.translationTable protocol
      ⟨(pmGet s.PublicPort.portmap protocol port).addr, port⟩ = some priKey) :
    tableLoad (deleteOldConnection s protocol port).PrivatePort.translationTable protocol
      priKey = Option.none := by
  unfold deleteOldConnection
  split
  case h_1 pk heq =>
    obtain rfl : pk = priKey := Option.some.inj (heq.symm.trans h)
    simpa using tableLoad_tableDelete_same _ protocol _
  case h_2 heq => rw [h] at heq; cases heq

/-! ### C3 — TCP FIN tracking -/

/-- C3: for a TCP packet with the FIN flag, a first FIN sets `fin_count` to 1
and records its direction; a FIN from the opposite direction of the recorded
one advances `fin_count` to 2; a second FIN from the same direction leaves
the state unchanged. -/
theorem C3_fin_tracking (cfg : NatConfig) (s : PortPairState) (flags port dir now : Nat)
    (hfin : flags &&& TCPFlagFin ≠ 0)
    (hdir : dir = pri2pub ∨ dir = pub2pri) :
    ((pmGet s.PublicPort.portmap TCPNumber port).finCount = 0 →
      checkTCPTermination cfg s flags port dir now =
        setPubPm s TCPNumber port
          { pmGet s.PublicPort.portmap TCPNumber port with
            finCount := 1, terminationDirection := dir }) ∧
    ((pmGet s.PublicPort.portmap TCPNumber port).finCount = 1 →
      (pmGet s.PublicPort.portmap TCPNumber port).terminationDirection = dirComplement dir →
      checkTCPTermination cfg s flags port dir now =
        setPubPm s TCPNumber port
          { pmGet s.PublicPort.portmap TCPNumber port with finCount := 2 }) ∧
    ((pmGet s.PublicPort.portmap TCPNumber port).finCount = 1 →
      (pmGet s.PublicPort.portmap TCPNumber port).terminationDirection = dir →
      checkTCPTermination cfg s flags port dir now = s) := by
  refine ⟨?_, ?_, ?_⟩
  · intro h0
    unfold checkTCPTermination
    rw [if_pos hfin, if_pos h0]
  · intro h1 hterm
    unfold checkTCPTermination
    rw [if_pos hfin, if_neg (by simp [h1]), if_pos ⟨h1, hterm⟩]
  · intro h1 hsame
    have hne : ¬ ((pmGet s.PublicPort.portmap TCPNumber port).finCount = 1 ∧
        (pmGet s.PublicPort.portmap TCPNumber port).terminationDirection =
          dirComplement dir) := by
      rintro ⟨-, h⟩
      rw [hsame] at h
      rcases hdir with rfl | rfl <;> exact absurd h (by decide)
    unfold checkTCPTermination
    rw [if_pos hfin, if_neg (by simp [h1]), if_neg hne]

/-- Witness for `C3_fin_tracking`: a first FIN (private→public) on the
established fixture flow. -/
theorem C3_fin_tracking_witness :
    (0x01 &&& TCPFlagFin ≠ 0) ∧
    (pmGet st0.PublicPort.portmap TCPNumber 1024).finCount = 0 ∧
    checkTCPTermination cfg0 st0 0x01 1024 pri2pub 1050 =
      setPubPm st0 TCPNumber 1024
        { pmGet st0.PublicPort.portmap TCPNumber 1024 with
          finCount := 1, terminationDirection := pri2pub } :=
  ⟨by decide, by decide,
    (C3_fin_tracking cfg0 st0 0x01 1024 pri2pub 1050 (by decide) (Or.inl rfl)).1 (by decide)⟩

/-! ### C4 — teardown on ACK after both FINs -/

/-- C4: a TCP ACK without FIN or RST, arriving when `fin_count = 2`, removes
the connection (both translation directions) and sets the port's `lastused`
into the future by `portReuseTimeout - connectionTimeout`, so the port is not
allocatable until `portReuseTimeout` has elapsed from now; an ACK with
`fin_count` below 2 changes nothing. -/
theorem C4_ack_teardown (cfg : NatConfig) (s : PortPairState) (flags port dir now : Nat)
    (hct : cfg.connectionTimeout ≤ cfg.portReuseTimeout)
    (hack : flags &&& TCPFlagAck ≠ 0)
    (hfin : flags &&& TCPFlagFin = 0)
    (hrst : flags &&& TCPFlagRst = 0) :
    ((pmGet s.PublicPort.portmap TCPNumber port).finCount = 2 →
      pmGet (checkTCPTermination cfg s flags port dir now).PublicPort.portmap TCPNumber port =
        { portMapEntry.empty with
          lastused := now + (cfg.portReuseTimeout - cfg.connectionTimeout) } ∧
      tableLoad (checkTCPTermination cfg s flags port dir now).PublicPort.translationTable
        TCPNumber ⟨(pmGet s.PublicPort.portmap TCPNumber port).addr, port⟩ = Option.none ∧
      (∀ priKey, tableLoad s.PublicPort.translationTable TCPNumber
          ⟨(pmGet s.PublicPort.portmap TCPNumber port).addr, port⟩ = some priKey →
        tableLoad (checkTCPTermination cfg s flags port dir now).PrivatePort.translationTable
          TCPNumber priKey = Option.none) ∧
      (∀ t, t ≤ now + cfg.portReuseTimeout →
        portIsFree cfg (checkTCPTermination cfg s flags port dir now).PublicPort.portmap
          TCPNumber port t = false) ∧
      (∀ t p, t ≤ now + cfg.portReuseTimeout →
        allocNewPort cfg (checkTCPTermination cfg s flags port dir now).PublicPort.portmap
          TCPNumber t = some p → p ≠ port)) ∧
    ((pmGet s.PublicPort.portmap TCPNumber port).finCount ≠ 2 →
      checkTCPTermination cfg s flags port dir now = s) := by
  have hC : checkTCPTermination cfg s flags port dir now =
      if (pmGet s.PublicPort.portmap TCPNumber port).finCount = 2 then
        setPubPm (deleteOldConnection s TCPNumber port) TCPNumber port
          { pmGet (deleteOldConnection s TCPNumber port).PublicPort.portmap TCPNumber port with
            lastused := now + (cfg.portReuseTimeout - cfg.connectionTimeout) }
      else s := by
    unfold checkTCPTermination
    rw [if_neg (by simp [hfin]), if_neg (by simp [hrst]), if_pos hack]
  constructor
  · intro h2
    rw [hC, if_pos h2]
    refine ⟨?_, ?_, ?_, ?_, ?_⟩
    · simp [setPubPm, pmGet_pmSet_same, deleteOldConnection_pmGet]
    · simpa [setPubPm] using deleteOldConnection_pub_load s TCPNumber port
    · intro priKey hpk
      simpa [setPubPm] using deleteOldConnection_pri_load s TCPNumber port priKey hpk
    · intro t ht
      have hnot : ¬ cfg.connectionTimeout <
          t - (now + (cfg.portReuseTimeout - cfg.connectionTimeout)) := by omega
      simp [portIsFree, setPubPm, pmGet_pmSet_same, deleteOldConnection_pmGet,
        portMapEntry.empty, hnot]
    · intro t p ht halloc heq
      subst heq
      unfold allocNewPort at halloc
      have hfree := List.find?_some halloc
      have hnot : ¬ cfg.connectionTimeout <
          t - (now + (cfg.portReuseTimeout - cfg.connectionTimeout)) := by omega
      simp [portIsFree, setPubPm, pmGet_pmSet_same, deleteOldConnection_pmGet,
        portMapEntry.empty, hnot] at hfree
  · intro hne
    rw [hC, if_neg hne]

/-- Witness for `C4_ack_teardown`: a bare ACK on the fixture flow after both
FIN directions were recorded. -/
theorem C4_ack_teardown_witness :
    cfg0.connectionTimeout ≤ cfg0.portReuseTimeout ∧
    (0x10 &&& TCPFlagAck ≠ 0) ∧ (0x10 &&& TCPFlagFin = 0) ∧ (0x10 &&& TCPFlagRst = 0) ∧
    (pmGet stFin2.PublicPort.portmap TCPNumber 1024).finCount = 2 ∧
    pmGet (checkTCPTermination cfg0 stFin2 0x10 1024 pri2pub 2000).PublicPort.portmap
        TCPNumber 1024 =
      { portMapEntry.empty with
        lastused := 2000 + (cfg0.portReuseTimeout - cfg0.connectionTimeout) } :=
  ⟨by decide, by decide, by decide, by decide, by decide,
    ((C4_ack_teardown cfg0 stFin2 0x10 1024 pri2pub 2000 (by decide) (by decide) (by decide)
      (by decide)).1 (by decide)).1⟩

/-! ### C5 — RST teardown -/

/-- C5 counterexample: a TCP packet carrying both FIN and RST (flags 0x05)
takes the FIN branch, so the connection entry is NOT removed — the claim's
"regardless of which other flags the packet carries" fails. -/
theorem C5_counterexample :
    (0x05 &&& TCPFlagRst ≠ 0) ∧
    tableLoad (checkTCPTermination cfg0 st0 0x05 1024 pri2pub 1050).PublicPort.translationTable
      TCPNumber ⟨203, 1024⟩ = some ⟨50, 4000⟩ ∧
    tableLoad (checkTCPTermination cfg0 st0 0x05 1024 pri2pub 1050).PrivatePort.translationTable
      TCPNumber ⟨50, 4000⟩ = some ⟨203, 1024⟩ := by
  decide

/-- C5 (amended): a TCP packet with RST and without FIN removes the
connection entry immediately in any FIN-tracking state — both translation
directions are deleted and the port's slot is reset to the zero entry, so
`lastused` is not pushed into the future. -/
theorem C5_rst_teardown (cfg : NatConfig) (s : PortPairState) (flags port dir now : Nat)
    (hrst : flags &&& TCPFlagRst ≠ 0)
    (hfin : flags &&& TCPFlagFin = 0) :
    checkTCPTermination cfg s flags port dir now = deleteOldConnection s TCPNumber port ∧
    pmGet (checkTCPTermination cfg s flags port dir now).PublicPort.portmap TCPNumber port =
      portMapEntry.empty ∧
    tableLoad (checkTCPTermination cfg s flags port dir now).PublicPort.translationTable
      TCPNumber ⟨(pmGet s.PublicPort.portmap TCPNumber port).addr, port⟩ = Option.none ∧
    (∀ priKey, tableLoad s.PublicPort.translationTable TCPNumber
        ⟨(pmGet s.PublicPort.portmap TCPNumber port).addr, port⟩ = some priKey →
      tableLoad (checkTCPTermination cfg s flags port dir now).PrivatePort.translationTable
        TCPNumber priKey = Option.none) := by
  have hC : checkTCPTermination cfg s flags port dir now =
      deleteOldConnection s TCPNumber port := by
    unfold checkTCPTermination
    rw [if_neg (by simp [hfin]), if_pos hrst]
  refine ⟨hC, ?_, ?_, ?_⟩
  · rw [hC]; exact deleteOldConnection_pmGet s TCPNumber port
  · rw [hC]; exact deleteOldConnection_pub_load s TCPNumber port
  · intro priKey hpk
    rw [hC]; exact deleteOldConnection_pri_load s TCPNumber port priKey hpk

/-- Witness for `C5_rst_teardown`: an RST+ACK packet on the fixture flow. -/
theorem C5_rst_teardown_witness :
    (0x14 &&& TCPFlagRst ≠ 0) ∧ (0x14 &&& TCPFlagFin = 0) ∧
    checkTCPTermination cfg0 st0 0x14 1024 pub2pri 1050 =
      deleteOldConnection st0 TCPNumber 1024 :=
  ⟨by decide, by decide,
    (C5_rst_teardown cfg0 st0 0x14 1024 pub2pri 1050 (by decide) (by decide)).1⟩

/-! ### Helper lemmas on the handlers -/

/-- `handleICMP` returns one of: pass-through, KNI redirect, or drop with a
single generated reply. -/
theorem handleICMP_cases (cfg : NatConfig) (c : PortConfig) (ps : Ipv4PortState)
    (pkt : Packet) (key : Option Tuple) (now : Nat) :
    handleICMP cfg c ps pkt key now = (dirSEND, []) ∨
    handleICMP cfg c ps pkt key now = (dirKNI, []) ∨
    ∃ a, handleICMP cfg c ps pkt key now = (dirDROP, [a]) := by
  obtain ⟨es, ed, vl, pl3, cf⟩ := pkt
  cases pl3 with
  | ipv4 src dst proto l4 =>
    cases l4 with
    | icmp t cd idn =>
        simp only [handleICMP]
        split_ifs with h1 h2 h3
        · exact Or.inl rfl
        · exact Or.inr (Or.inl rfl)
        · exact Or.inl rfl
        · exact Or.inr (Or.inr ⟨_, rfl⟩)
    | tcp a b f => exact Or.inl rfl
    | udp a b => exact Or.inl rfl
    | unknown => exact Or.inl rfl
  | arp op sha spa tha tpa => exact Or.inl rfl
  | other => exact Or.inl rfl

/-- `handleICMP` redirects to KNI only when a kernel interface is configured,
the packet is addressed to the attachment point itself, and it is ICMP. -/
theorem handleICMP_kni (cfg : NatConfig) (c : PortConfig) (ps : Ipv4PortState)
    (pkt : Packet) (key : Option Tuple) (now : Nat) (src dst proto : Nat) (l4 : L4)
    (hL3 : pkt.l3 = L3.ipv4 src dst proto l4)
    (h : (handleICMP cfg c ps pkt key now).1 = dirKNI) :
    c.hasKNI = true ∧ dst = c.subnetAddr ∧ ∃ t cd idn, l4 = L4.icmp t cd idn := by
  obtain ⟨es, ed, vl, pl3, cf⟩ := pkt
  simp only at hL3
  subst hL3
  cases l4 with
  | icmp t cd idn =>
      simp only [handleICMP] at h
      by_cases h1 : dst ≠ c.subnetAddr
      · rw [if_pos h1] at h
        simp at h
      · rw [if_neg h1] at h
        by_cases h2 : icmpToKni cfg c ps key now = true
        · have hk : c.hasKNI = true := by
            unfold icmpToKni at h2
            exact ((Bool.and_eq_true _ _).mp h2).1
          exact ⟨hk, not_not.mp h1, t, cd, idn, rfl⟩
        · rw [if_neg h2] at h
          split_ifs at h
  | tcp a b f => simp [handleICMP] at h
  | udp a b => simp [handleICMP] at h
  | unknown => simp [handleICMP] at h

/-- When ingress key generation yields a key, the packet passed the ICMP
self-addressed check and nothing was emitted. -/
theorem genDst_eq_of_some (cfg : NatConfig) (c : PortConfig) (ps : Ipv4PortState)
    (pkt : Packet) (dst : Nat) (l4 : L4) (now : Nat) (key : Tuple)
    (h : (generateLookupKeyFromDstAndHandleICMP cfg c ps pkt dst l4 now).1 = some key) :
    generateLookupKeyFromDstAndHandleICMP cfg c ps pkt dst l4 now =
      (some key, dirSEND, []) := by
  cases l4 with
  | tcp a b f =>
      simp only [generateLookupKeyFromDstAndHandleICMP] at h ⊢
      rw [Option.some.inj h]
  | udp a b =>
      simp only [generateLookupKeyFromDstAndHandleICMP] at h ⊢
      rw [Option.some.inj h]
  | unknown => simp [generateLookupKeyFromDstAndHandleICMP] at h
  | icmp t cd idn =>
      rcases handleICMP_cases cfg c ps pkt (some ⟨dst, idn⟩) now with hh | hh | ⟨a, hh⟩
      · simp only [generateLookupKeyFromDstAndHandleICMP, hh] at h ⊢
        simp at h ⊢
        exact h
      · simp [generateLookupKeyFromDstAndHandleICMP, hh] at h
      · simp [generateLookupKeyFromDstAndHandleICMP, hh] at h

/-- When egress key generation yields a key, the packet passed the ICMP
self-addressed check and nothing was emitted. -/
theorem genSrc_eq_of_some (cfg : NatConfig) (c : PortConfig) (ps : Ipv4PortState)
    (pkt : Packet) (src : Nat) (l4 : L4) (now : Nat) (key : Tuple)
    (h : (generateLookupKeyFromSrcAndHandleICMP cfg c ps pkt src l4 now).1 = some key) :
    generateLookupKeyFromSrcAndHandleICMP cfg c ps pkt src l4 now =
      (some key, dirSEND, []) := by
  cases l4 with
  | tcp a b f =>
      simp only [generateLookupKeyFromSrcAndHandleICMP] at h ⊢
      rw [Option.some.inj h]
  | udp a b =>
      simp only [generateLookupKeyFromSrcAndHandleICMP] at h ⊢
      rw [Option.some.inj h]
  | unknown => simp [generateLookupKeyFromSrcAndHandleICMP] at h
  | icmp t cd idn =>
      rcases handleICMP_cases cfg c ps pkt Option.none now with hh | hh | ⟨a, hh⟩
      · simp only [generateLookupKeyFromSrcAndHandleICMP, hh] at h ⊢
        simp at h ⊢
        exact h
      · simp [generateLookupKeyFromSrcAndHandleICMP, hh] at h
      · simp [generateLookupKeyFromSrcAndHandleICMP, hh] at h

/-! ### C6 — ARP request answering -/

/-- C6: with no kernel fallback configured, an ARP request targeting the
attachment point's configured address with a zeroed target-hardware field is
answered with exactly one reply carrying the configured MAC and swapped
sender/target fields, and the original packet is dropped; a request with a
different target address or a non-zero target-hardware field is dropped with
no reply.  In both cases the ARP cache is unchanged. -/
theorem C6_arp_request (c : PortConfig) (ps : Ipv4PortState) (pkt : Packet)
    (sha spa tha tpa : Nat)
    (hL3 : pkt.l3 = L3.arp ARPRequest sha spa tha tpa)
    (hkni : c.hasKNI = false) :
    (tpa = c.subnetAddr → tha = 0 →
      handleARP c ps pkt =
        (dirDROP, ps.arpTable,
          [{ etherSrc := c.srcMACAddress, etherDst := sha, vlan := pkt.vlan,
             l3 := L3.arp ARPReply c.srcMACAddress tpa sha spa,
             checksumFresh := true }])) ∧
    ((tpa ≠ c.subnetAddr ∨ tha ≠ 0) →
      handleARP c ps pkt = (dirDROP, ps.arpTable, [])) := by
  obtain ⟨es, ed, vl, pl3, cf⟩ := pkt
  simp only at hL3
  subst hL3
  constructor
  · intro htpa htha
    subst htpa
    subst htha
    simp [handleARP, InitARPReplyPacket, hkni]
  · intro hbad
    by_cases htpa : tpa = c.subnetAddr
    · rcases hbad with h | h
      · exact absurd htpa h
      · subst htpa
        simp [handleARP, hkni, h]
    · simp [handleARP, hkni, htpa]

/-- Witness for `C6_arp_request`: the fixture ARP request for 203 answered on
the public attachment point. -/
theorem C6_arp_request_witness :
    pktArpReq.l3 = L3.arp ARPRequest 3 99 0 203 ∧
    pubCfg0.hasKNI = false ∧
    handleARP pubCfg0 st0.PublicPort pktArpReq =
      (dirDROP, st0.PublicPort.arpTable,
        [{ etherSrc := pubCfg0.srcMACAddress, etherDst := 3, vlan := pktArpReq.vlan,
           l3 := L3.arp ARPReply pubCfg0.srcMACAddress 203 3 99,
           checksumFresh := true }]) :=
  ⟨rfl, rfl, (C6_arp_request pubCfg0 st0.PublicPort pktArpReq 3 99 0 203 rfl rfl).1 rfl rfl⟩

/-! ### C7 — ICMP echo self-response -/

/-- C7: an ICMP echo request (type 8, code 0) addressed to the attachment
point's own address and not redirected to kernel fallback produces exactly
one echo reply with swapped addressing, type set to echo reply and the
checksum recomputed, and the original packet's disposition is drop; an ICMP
packet addressed to the attachment point whose type is not echo request
falls through to normal translation (`dirSEND`). -/
theorem C7_echo_self (cfg : NatConfig) (c : PortConfig) (ps : Ipv4PortState)
    (pkt : Packet) (key : Option Tuple) (now : Nat)
    (src dst proto icmpType code idn : Nat)
    (hL3 : pkt.l3 = L3.ipv4 src dst proto (L4.icmp icmpType code idn))
    (hdst : dst = c.subnetAddr)
    (hkni : icmpToKni cfg c ps key now = false) :
    (icmpType = ICMPTypeEchoRequest → code = 0 →
      handleICMP cfg c ps pkt key now =
        (dirDROP,
          [{ etherSrc := pkt.etherDst, etherDst := pkt.etherSrc, vlan := pkt.vlan,
             l3 := L3.ipv4 dst src proto (L4.icmp ICMPTypeEchoResponse code idn),
             checksumFresh := true }])) ∧
    (icmpType ≠ ICMPTypeEchoRequest →
      handleICMP cfg c ps pkt key now = (dirSEND, [])) := by
  obtain ⟨es, ed, vl, pl3, cf⟩ := pkt
  simp only at hL3
  subst hL3
  constructor
  · intro hty hcd
    subst hty
    subst hcd
    simp [handleICMP, swapAddrIPv4, hdst, hkni]
  · intro hty
    simp [handleICMP, hdst, hkni, hty]

/-- Witness for `C7_echo_self`: the fixture echo request 99 → 203 on the
public attachment point (no kernel fallback). -/
theorem C7_echo_self_witness :
    pktIcmpToPub.l3 = L3.ipv4 99 203 1 (L4.icmp 8 0 7777) ∧
    (203 : Nat) = pubCfg0.subnetAddr ∧
    icmpToKni cfg0 pubCfg0 st0.PublicPort Option.none 1050 = false ∧
    handleICMP cfg0 pubCfg0 st0.PublicPort pktIcmpToPub Option.none 1050 =
      (dirDROP,
        [{ etherSrc := pktIcmpToPub.etherDst, etherDst := pktIcmpToPub.etherSrc,
           vlan := pktIcmpToPub.vlan,
           l3 := L3.ipv4 203 99 1 (L4.icmp ICMPTypeEchoResponse 0 7777),
           checksumFresh := true }]) :=
  ⟨rfl, rfl, rfl,
    (C7_echo_self cfg0 pubCfg0 st0.PublicPort pktIcmpToPub Option.none 1050
      99 203 1 8 0 7777 rfl rfl rfl).1 rfl rfl⟩

/-! ### C2 — aging policy -/

/-- C2 counterexample: an egress lookup hit on a stale, non-static entry
(idle 200 > connectionTimeout 100) is NOT evicted and NOT dropped — the code
refreshes `lastused` unconditionally and forwards the packet, contradicting
the claim that the aging policy applies to both directions. -/
theorem C2_counterexample :
    pme0.static = false ∧
    cfg0.connectionTimeout < 1200 - pme0.lastused ∧
    tableLoad st0.PrivatePort.translationTable 6 ⟨50, 4000⟩ = some ⟨203, 1024⟩ ∧
    (PrivateToPublicTranslation cfg0 pairCfg0 st0 pktTcpEgress 1200).dir = dirSEND ∧
    tableLoad (PrivateToPublicTranslation cfg0 pairCfg0 st0 pktTcpEgress 1200).state.PrivatePort.translationTable
      6 ⟨50, 4000⟩ = some ⟨203, 1024⟩ ∧
    (pmGet (PrivateToPublicTranslation cfg0 pairCfg0 st0 pktTcpEgress 1200).state.PublicPort.portmap
      6 1024).lastused = 1200 := by
  decide

/-- C2 (amended): on an ingress lookup hit, if the port is static or fresh
(`now - lastused ≤ connectionTimeout`) then `lastused` is refreshed to `now`
and processing proceeds with the translation continuation; otherwise both
mapping directions are evicted via `deleteOldConnection` and the packet is
dropped.  On an egress lookup hit, `lastused` is refreshed unconditionally
(no staleness check, no eviction) and processing proceeds. -/
theorem C2_aging :
    (∀ (cfg : NatConfig) (pc : PairConfig) (s : PortPairState) (pkt : Packet)
        (now src dst proto : Nat) (l4 : L4) (key value : Tuple),
      pkt.l3 = L3.ipv4 src dst proto l4 →
      (generateLookupKeyFromDstAndHandleICMP cfg pc.PublicPort s.PublicPort
        pkt dst l4 now).1 = some key →
      tableLoad s.PublicPort.translationTable proto key = some value →
      (((pmGet s.PublicPort.portmap proto key.port).static = true ∨
          now - (pmGet s.PublicPort.portmap proto key.port).lastused ≤
            cfg.connectionTimeout) →
        PublicToPrivateTranslation cfg pc s pkt now =
          ingressTranslatePart cfg pc
            (setPubPm s proto key.port
              { pmGet s.PublicPort.portmap proto key.port with lastused := now })
            pkt src proto l4 key value now) ∧
      (((pmGet s.PublicPort.portmap proto key.port).static = false ∧
          cfg.connectionTimeout <
            now - (pmGet s.PublicPort.portmap proto key.port).lastused) →
        PublicToPrivateTranslation cfg pc s pkt now =
          ⟨dirDROP, deleteOldConnection s proto key.port, pkt, []⟩)) ∧
    (∀ (cfg : NatConfig) (pc : PairConfig) (s : PortPairState) (pkt : Packet)
        (now src dst proto : Nat) (l4 : L4) (key value : Tuple),
      pkt.l3 = L3.ipv4 src dst proto l4 →
      (generateLookupKeyFromSrcAndHandleICMP cfg pc.PrivatePort s.PrivatePort
        pkt src l4 now).1 = some key →
      ¬(pc.PrivatePort.hasKNI = true ∧ pc.PrivatePort.subnetAddr = dst) →
      tableLoad s.PrivatePort.translationTable proto key = some value →
      PrivateToPublicTranslation cfg pc s pkt now =
        egressTranslatePart cfg pc
          (setPubPm s proto value.port
            { pmGet s.PublicPort.portmap proto value.port with lastused := now })
          pkt dst proto l4 value now) := by
  constructor
  · intro cfg pc s pkt now src dst proto l4 key value hL3 hgen hhit
    have hfull := genDst_eq_of_some cfg pc.PublicPort s.PublicPort pkt dst l4 now key hgen
    obtain ⟨es, ed, vl, pl3, cf⟩ := pkt
    simp only at hL3
    subst hL3
    constructor
    · intro hfresh
      have hcond : ((pmGet s.PublicPort.portmap proto key.port).static ||
          decide (now - (pmGet s.PublicPort.portmap proto key.port).lastused ≤
            cfg.connectionTimeout)) = true := by
        rcases hfresh with h | h <;> simp [h]
      simp only [PublicToPrivateTranslation, parsePacketAndCheckARP, hfull, hhit]
      rw [if_pos hcond]
    · intro hstale
      obtain ⟨hs1, hs2⟩ := hstale
      simp only [PublicToPrivateTranslation, parsePacketAndCheckARP, hfull, hhit]
      rw [if_neg (by simp [hs1]; omega)]
  · intro cfg pc s pkt now src dst proto l4 key value hL3 hgen hkni hhit
    have hfull := genSrc_eq_of_some cfg pc.PrivatePort s.PrivatePort pkt src l4 now key hgen
    obtain ⟨es, ed, vl, pl3, cf⟩ := pkt
    simp only at hL3
    subst hL3
    have hcond : (pc.PrivatePort.hasKNI &&
        decide (pc.PrivatePort.subnetAddr = dst)) = false := by
      cases hb : pc.PrivatePort.hasKNI with
      | false => simp
      | true =>
          simp
          exact fun hd => hkni ⟨hb, hd⟩
    simp only [PrivateToPublicTranslation, parsePacketAndCheckARP, hfull, hhit]
    rw [if_neg (by rw [hcond]; simp)]

/-- Witness for `C2_aging`: the fresh ingress hit 99:80 → 203:1024 on the
fixture flow at tick 1050. -/
theorem C2_aging_witness :
    pktTcpIngress.l3 = L3.ipv4 99 203 6 (L4.tcp 80 1024 0x10) ∧
    (generateLookupKeyFromDstAndHandleICMP cfg0 pairCfg0.PublicPort st0.PublicPort
      pktTcpIngress 203 (L4.tcp 80 1024 0x10) 1050).1 = some ⟨203, 1024⟩ ∧
    tableLoad st0.PublicPort.translationTable 6 ⟨203, 1024⟩ = some ⟨50, 4000⟩ ∧
    (1050 - (pmGet st0.PublicPort.portmap 6 (Tuple.mk 203 1024).port).lastused ≤
      cfg0.connectionTimeout) ∧
    PublicToPrivateTranslation cfg0 pairCfg0 st0 pktTcpIngress 1050 =
      ingressTranslatePart cfg0 pairCfg0
        (setPubPm st0 6 (Tuple.mk 203 1024).port
          { pmGet st0.PublicPort.portmap 6 (Tuple.mk 203 1024).port with lastused := 1050 })
        pktTcpIngress 99 6 (L4.tcp 80 1024 0x10) ⟨203, 1024⟩ ⟨50, 4000⟩ 1050 :=
  ⟨rfl, by decide, by decide, by decide,
    (C2_aging.1 cfg0 pairCfg0 st0 pktTcpIngress 1050 99 203 6 (L4.tcp 80 1024 0x10)
      ⟨203, 1024⟩ ⟨50, 4000⟩ rfl (by decide) (by decide)).1 (Or.inr (by decide))⟩

theorem arpLoad_arpStore_same (t : ArpTable) (ip mac : Nat) :
    arpLoad (arpStore t ip mac) ip = some mac := by
  simp [arpLoad, arpStore, List.find?]

theorem deleteOldConnection_arp (s : PortPairState) (protocol port : Nat) :
    (deleteOldConnection s protocol port).PrivatePort.arpTable =
      s.PrivatePort.arpTable := by
  unfold deleteOldConnection
  split <;> rfl

theorem checkTCPTermination_arp (cfg : NatConfig) (s : PortPairState)
    (flags port dir now : Nat) :
    (checkTCPTermination cfg s flags port dir now).PrivatePort.arpTable =
      s.PrivatePort.arpTable := by
  unfold checkTCPTermination
  split_ifs <;> simp [setPubPm, deleteOldConnection_arp]

/-- The translation continuation does not touch the private ARP cache. -/
theorem egressTranslatePart_arp (cfg : NatConfig) (pc : PairConfig)
    (s : PortPairState) (pkt : Packet) (dstAddr protocol : Nat) (l4 : L4)
    (value : Tuple) (now : Nat) :
    (egressTranslatePart cfg pc s pkt dstAddr protocol l4 value now).state.PrivatePort.arpTable =
      s.PrivatePort.arpTable := by
  cases l4 with
  | tcp a b f =>
      unfold egressTranslatePart
      split_ifs
      · rcases h : getMACForIP pc.PublicPort
            (checkTCPTermination cfg s f value.port pri2pub now).PublicPort dstAddr with ⟨mo, em⟩
        cases mo <;> simp [h, checkTCPTermination_arp]
      · rfl
  | udp a b =>
      unfold egressTranslatePart
      split_ifs
      · rcases h : getMACForIP pc.PublicPort s.PublicPort dstAddr with ⟨mo, em⟩
        cases mo <;> simp [h]
      · rfl
  | icmp t cd idn =>
      unfold egressTranslatePart
      split_ifs
      · rcases h : getMACForIP pc.PublicPort s.PublicPort dstAddr with ⟨mo, em⟩
        cases mo <;> simp [h]
      · rfl
  | unknown =>
      unfold egressTranslatePart
      split_ifs
      · rcases h : getMACForIP pc.PublicPort s.PublicPort dstAddr with ⟨mo, em⟩
        cases mo <;> simp [h]
      · rfl

/-- Allocating a connection does not touch the private ARP cache. -/
theorem allocateNewEgressConnection_arp (cfg : NatConfig) (pubAddr : Nat)
    (s : PortPairState) (protocol : Nat) (privEntry : Tuple) (now : Nat) :
    (allocateNewEgressConnection cfg pubAddr s protocol privEntry now).2.PrivatePort.arpTable =
      s.PrivatePort.arpTable := by
  unfold allocateNewEgressConnection
  cases h : allocNewPort cfg s.PublicPort.portmap protocol now <;> simp [h]

/-! ### C1 — ingress miss -/

/-- C1 counterexample: with a kernel interface on the public side, an ICMP
packet addressed to the attachment point itself whose key (203, 7777) has no
translation entry is redirected to KNI, not dropped. -/
theorem C1_counterexample :
    tableLoad st0.PublicPort.translationTable ICMPNumber ⟨203, 7777⟩ = Option.none ∧
    (PublicToPrivateTranslation cfg0 pairCfgPubKni st0 pktIcmpToPub 1050).dir = dirKNI ∧
    (PublicToPrivateTranslation cfg0 pairCfgPubKni st0 pktIcmpToPub 1050).dir ≠ dirDROP := by
  decide

/-- C1 (amended): an ingress IPv4 packet whose lookup key misses the public
translation table for its protocol leaves the translation state completely
unchanged — ingress never creates mappings or allocates ports — and its
disposition is drop, except that an ICMP packet addressed to the attachment
point itself may instead be diverted to the kernel interface when one is
configured. -/
theorem C1_ingress_miss (cfg : NatConfig) (pc : PairConfig) (s : PortPairState)
    (pkt : Packet) (now src dst proto : Nat) (l4 : L4) (key : Tuple)
    (hL3 : pkt.l3 = L3.ipv4 src dst proto l4)
    (hkey : ingressKeyOf dst l4 = some key)
    (hmiss : tableLoad s.PublicPort.translationTable proto key = Option.none) :
    (PublicToPrivateTranslation cfg pc s pkt now).state = s ∧
    ((PublicToPrivateTranslation cfg pc s pkt now).dir = dirDROP ∨
      ((PublicToPrivateTranslation cfg pc s pkt now).dir = dirKNI ∧
        pc.PublicPort.hasKNI = true ∧ dst = pc.PublicPort.subnetAddr ∧
        ∃ t cd idn, l4 = L4.icmp t cd idn)) := by
  obtain ⟨es, ed, vl, pl3, cf⟩ := pkt
  simp only at hL3
  subst hL3
  cases l4 with
  | tcp a b f =>
      obtain rfl : key = ⟨dst, b⟩ := by
        simp only [ingressKeyOf] at hkey
        exact (Option.some.inj hkey).symm
      simp [PublicToPrivateTranslation, parsePacketAndCheckARP,
        generateLookupKeyFromDstAndHandleICMP, hmiss]
  | udp a b =>
      obtain rfl : key = ⟨dst, b⟩ := by
        simp only [ingressKeyOf] at hkey
        exact (Option.some.inj hkey).symm
      simp [PublicToPrivateTranslation, parsePacketAndCheckARP,
        generateLookupKeyFromDstAndHandleICMP, hmiss]
  | unknown => simp [ingressKeyOf] at hkey
  | icmp t cd idn =>
      obtain rfl : key = ⟨dst, idn⟩ := by
        simp only [ingressKeyOf] at hkey
        exact (Option.some.inj hkey).symm
      rcases handleICMP_cases cfg pc.PublicPort s.PublicPort
          ⟨es, ed, vl, L3.ipv4 src dst proto (L4.icmp t cd idn), cf⟩
          (some ⟨dst, idn⟩) now with hh | hh | ⟨a, hh⟩
      · simp [PublicToPrivateTranslation, parsePacketAndCheckARP,
          generateLookupKeyFromDstAndHandleICMP, hh, hmiss]
      · have hk := handleICMP_kni cfg pc.PublicPort s.PublicPort
          ⟨es, ed, vl, L3.ipv4 src dst proto (L4.icmp t cd idn), cf⟩
          (some ⟨dst, idn⟩) now src dst proto (L4.icmp t cd idn) rfl (by rw [hh])
        refine ⟨?_, Or.inr ⟨?_, hk.1, hk.2.1, t, cd, idn, rfl⟩⟩ <;>
          simp [PublicToPrivateTranslation, parsePacketAndCheckARP,
            generateLookupKeyFromDstAndHandleICMP, hh]
      · simp [PublicToPrivateTranslation, parsePacketAndCheckARP,
          generateLookupKeyFromDstAndHandleICMP, hh]

/-- Witness for `C1_ingress_miss`: an ingress TCP packet to the unbound
public port 2000 on the fixture state. -/
theorem C1_ingress_miss_witness :
    pktTcpIngressMiss.l3 = L3.ipv4 99 203 6 (L4.tcp 80 2000 0x10) ∧
    ingressKeyOf 203 (L4.tcp 80 2000 0x10) = some ⟨203, 2000⟩ ∧
    tableLoad st0.PublicPort.translationTable 6 ⟨203, 2000⟩ = Option.none ∧
    (PublicToPrivateTranslation cfg0 pairCfg0 st0 pktTcpIngressMiss 1050).state = st0 ∧
    ((PublicToPrivateTranslation cfg0 pairCfg0 st0 pktTcpIngressMiss 1050).dir = dirDROP ∨
      ((PublicToPrivateTranslation cfg0 pairCfg0 st0 pktTcpIngressMiss 1050).dir = dirKNI ∧
        pairCfg0.PublicPort.hasKNI = true ∧ (203 : Nat) = pairCfg0.PublicPort.subnetAddr ∧
        ∃ t cd idn, L4.tcp 80 2000 0x10 = L4.icmp t cd idn)) :=
  ⟨rfl, rfl, by decide,
    C1_ingress_miss cfg0 pairCfg0 st0 pktTcpIngressMiss 1050 99 203 6
      (L4.tcp 80 2000 0x10) ⟨203, 2000⟩ rfl rfl (by decide)⟩

/-! ### C8 — pool exhaustion -/

/-- C8: an egress packet whose lookup misses and whose port allocation fails
with pool exhaustion is dropped, and the translation state is unchanged:
neither translation table gains an entry and no `portMapEntry` record is
written. -/
theorem C8_pool_exhausted (cfg : NatConfig) (pc : PairConfig) (s : PortPairState)
    (pkt : Packet) (now src dst proto : Nat) (l4 : L4) (key : Tuple)
    (hL3 : pkt.l3 = L3.ipv4 src dst proto l4)
    (hgen : (generateLookupKeyFromSrcAndHandleICMP cfg pc.PrivatePort s.PrivatePort
      pkt src l4 now).1 = some key)
    (hkni : ¬(pc.PrivatePort.hasKNI = true ∧ pc.PrivatePort.subnetAddr = dst))
    (hmiss : tableLoad s.PrivatePort.translationTable proto key = Option.none)
    (halloc : allocNewPort cfg s.PublicPort.portmap proto now = Option.none) :
    (PrivateToPublicTranslation cfg pc s pkt now).dir = dirDROP ∧
    (PrivateToPublicTranslation cfg pc s pkt now).state.PublicPort.translationTable =
      s.PublicPort.translationTable ∧
    (PrivateToPublicTranslation cfg pc s pkt now).state.PrivatePort.translationTable =
      s.PrivatePort.translationTable ∧
    (PrivateToPublicTranslation cfg pc s pkt now).state.PublicPort.portmap =
      s.PublicPort.portmap := by
  have hfull := genSrc_eq_of_some cfg pc.PrivatePort s.PrivatePort pkt src l4 now key hgen
  obtain ⟨es, ed, vl, pl3, cf⟩ := pkt
  simp only at hL3
  subst hL3
  have hcond : (pc.PrivatePort.hasKNI &&
      decide (pc.PrivatePort.subnetAddr = dst)) = false := by
    cases hb : pc.PrivatePort.hasKNI with
    | false => simp
    | true =>
        simp
        exact fun hd => hkni ⟨hb, hd⟩
  simp only [PrivateToPublicTranslation, parsePacketAndCheckARP, hfull, hmiss]
  rw [if_neg (by rw [hcond]; simp)]
  simp [allocateNewEgressConnection, halloc]

/-- Witness for `C8_pool_exhausted`: a new flow 51:5000 → 99:80 with an empty
port pool. -/
theorem C8_pool_exhausted_witness :
    pktTcpNewFlow.l3 = L3.ipv4 51 99 6 (L4.tcp 5000 80 0x02) ∧
    (generateLookupKeyFromSrcAndHandleICMP cfgExhausted pairCfg0.PrivatePort
      st0.PrivatePort pktTcpNewFlow 51 (L4.tcp 5000 80 0x02) 1050).1 = some ⟨51, 5000⟩ ∧
    tableLoad st0.PrivatePort.translationTable 6 ⟨51, 5000⟩ = Option.none ∧
    allocNewPort cfgExhausted st0.PublicPort.portmap 6 1050 = Option.none ∧
    (PrivateToPublicTranslation cfgExhausted pairCfg0 st0 pktTcpNewFlow 1050).dir = dirDROP ∧
    (PrivateToPublicTranslation cfgExhausted pairCfg0 st0 pktTcpNewFlow 1050).state.PublicPort.translationTable =
      st0.PublicPort.translationTable ∧
    (PrivateToPublicTranslation cfgExhausted pairCfg0 st0 pktTcpNewFlow 1050).state.PrivatePort.translationTable =
      st0.PrivatePort.translationTable ∧
    (PrivateToPublicTranslation cfgExhausted pairCfg0 st0 pktTcpNewFlow 1050).state.PublicPort.portmap =
      st0.PublicPort.portmap :=
  ⟨rfl, by decide, by decide, by decide,
    C8_pool_exhausted cfgExhausted pairCfg0 st0 pktTcpNewFlow 1050 51 99 6
      (L4.tcp 5000 80 0x02) ⟨51, 5000⟩ rfl (by decide) (by decide) (by decide) (by decide)⟩

/-! ### C9 — egress traffic addressed to the private interface -/

/-- C9 counterexample: with a kernel interface configured on the private
side, an egress ICMP echo request addressed to the private interface is
answered locally and dropped — its disposition is `dirDROP`, not the
kernel-fallback the claim asserts for every supported protocol. -/
theorem C9_counterexample :
    pairCfgPriKni.PrivatePort.hasKNI = true ∧
    pktIcmpToPri.l3 = L3.ipv4 50 10 1 (L4.icmp 8 0 7777) ∧
    (10 : Nat) = pairCfgPriKni.PrivatePort.subnetAddr ∧
    (PrivateToPublicTranslation cfg0 pairCfgPriKni st0 pktIcmpToPri 1050).dir = dirDROP ∧
    (PrivateToPublicTranslation cfg0 pairCfgPriKni st0 pktIcmpToPri 1050).dir ≠ dirKNI := by
  decide

/-- C9 (amended): with a kernel interface configured, an egress IPv4 packet
whose destination equals the private attachment point's own address goes to
kernel-fallback, untranslated and with state unchanged, for TCP, UDP, and any
ICMP message that is not an echo request; an ICMP echo request (code 0) is
instead answered locally with one generated echo reply and dropped. -/
theorem C9_kni_self (cfg : NatConfig) (pc : PairConfig) (s : PortPairState)
    (pkt : Packet) (now src dst proto : Nat) (l4 : L4)
    (hL3 : pkt.l3 = L3.ipv4 src dst proto l4)
    (hkni : pc.PrivatePort.hasKNI = true)
    (hdst : dst = pc.PrivatePort.subnetAddr) :
    (∀ a b f, l4 = L4.tcp a b f →
      PrivateToPublicTranslation cfg pc s pkt now = ⟨dirKNI, s, pkt, []⟩) ∧
    (∀ a b, l4 = L4.udp a b →
      PrivateToPublicTranslation cfg pc s pkt now = ⟨dirKNI, s, pkt, []⟩) ∧
    (∀ t cd idn, l4 = L4.icmp t cd idn → ¬(t = ICMPTypeEchoRequest ∧ cd = 0) →
      PrivateToPublicTranslation cfg pc s pkt now = ⟨dirKNI, s, pkt, []⟩) ∧
    (∀ idn, l4 = L4.icmp ICMPTypeEchoRequest 0 idn →
      PrivateToPublicTranslation cfg pc s pkt now =
        ⟨dirDROP, s, pkt,
          [{ etherSrc := pkt.etherDst, etherDst := pkt.etherSrc, vlan := pkt.vlan,
             l3 := L3.ipv4 dst src proto (L4.icmp ICMPTypeEchoResponse 0 idn),
             checksumFresh := true }]⟩) := by
  obtain ⟨es, ed, vl, pl3, cf⟩ := pkt
  simp only at hL3
  subst hL3
  subst hdst
  refine ⟨?_, ?_, ?_, ?_⟩
  · rintro a b f rfl
    simp [PrivateToPublicTranslation, parsePacketAndCheckARP,
      generateLookupKeyFromSrcAndHandleICMP, hkni]
  · rintro a b rfl
    simp [PrivateToPublicTranslation, parsePacketAndCheckARP,
      generateLookupKeyFromSrcAndHandleICMP, hkni]
  · rintro t cd idn rfl hne
    have hor : t ≠ ICMPTypeEchoRequest ∨ cd ≠ 0 := not_and_or.mp hne
    simp [PrivateToPublicTranslation, parsePacketAndCheckARP,
      generateLookupKeyFromSrcAndHandleICMP, handleICMP, icmpToKni, hkni, hor]
  · rintro idn rfl
    simp [PrivateToPublicTranslation, parsePacketAndCheckARP,
      generateLookupKeyFromSrcAndHandleICMP, handleICMP, icmpToKni, swapAddrIPv4, hkni]

/-- Witness for `C9_kni_self`: a TCP packet 50:4000 → 10 with the private
kernel interface configured. -/
theorem C9_kni_self_witness :
    pktTcpToPri.l3 = L3.ipv4 50 10 6 (L4.tcp 4000 80 0x10) ∧
    pairCfgPriKni.PrivatePort.hasKNI = true ∧
    (10 : Nat) = pairCfgPriKni.PrivatePort.subnetAddr ∧
    PrivateToPublicTranslation cfg0 pairCfgPriKni st0 pktTcpToPri 1050 =
      ⟨dirKNI, st0, pktTcpToPri, []⟩ :=
  ⟨rfl, rfl, rfl,
    (C9_kni_self cfg0 pairCfgPriKni st0 pktTcpToPri 1050 50 10 6 (L4.tcp 4000 80 0x10)
      rfl rfl rfl).1 4000 80 0x10 rfl⟩

/-! ### C10 — ARP learning persists across allocation failure -/

/-- C10: on an egress lookup miss, the sender's (source IP, source MAC)
binding is stored in the private ARP cache before allocation is attempted,
and it persists whatever the allocation outcome; in particular, when the
pool is exhausted the packet is dropped but the learned ARP entry remains. -/
theorem C10_arp_learned (cfg : NatConfig) (pc : PairConfig) (s : PortPairState)
    (pkt : Packet) (now src dst proto : Nat) (l4 : L4) (key : Tuple)
    (hL3 : pkt.l3 = L3.ipv4 src dst proto l4)
    (hgen : (generateLookupKeyFromSrcAndHandleICMP cfg pc.PrivatePort s.PrivatePort
      pkt src l4 now).1 = some key)
    (hkni : ¬(pc.PrivatePort.hasKNI = true ∧ pc.PrivatePort.subnetAddr = dst))
    (hmiss : tableLoad s.PrivatePort.translationTable proto key = Option.none) :
    arpLoad (PrivateToPublicTranslation cfg pc s pkt now).state.PrivatePort.arpTable
      key.addr = some pkt.etherSrc ∧
    (allocNewPort cfg s.PublicPort.portmap proto now = Option.none →
      (PrivateToPublicTranslation cfg pc s pkt now).dir = dirDROP) := by
  have hfull := genSrc_eq_of_some cfg pc.PrivatePort s.PrivatePort pkt src l4 now key hgen
  obtain ⟨es, ed, vl, pl3, cf⟩ := pkt
  simp only at hL3
  subst hL3
  have hcond : (pc.PrivatePort.hasKNI &&
      decide (pc.PrivatePort.subnetAddr = dst)) = false := by
    cases hb : pc.PrivatePort.hasKNI with
    | false => simp
    | true =>
        simp
        exact fun hd => hkni ⟨hb, hd⟩
  simp only [PrivateToPublicTranslation, parsePacketAndCheckARP, hfull, hmiss]
  rw [if_neg (by rw [hcond]; simp)]
  cases halloc : allocNewPort cfg s.PublicPort.portmap proto now with
  | none =>
      constructor
      · simp [allocateNewEgressConnection, halloc, arpLoad_arpStore_same]
      · intro _
        simp [allocateNewEgressConnection, halloc]
  | some port =>
      constructor
      · have harp := allocateNewEgressConnection_arp cfg pc.PublicPort.subnetAddr
          { s with PrivatePort := { s.PrivatePort with
              arpTable := arpStore s.PrivatePort.arpTable key.addr es } } proto key now
        rcases hra : allocateNewEgressConnection cfg pc.PublicPort.subnetAddr
            { s with PrivatePort := { s.PrivatePort with
                arpTable := arpStore s.PrivatePort.arpTable key.addr es } } proto key now
          with ⟨vo, sNew⟩
        rw [hra] at harp
        cases vo with
        | none =>
            simp only [hra]
            rw [harp]
            exact arpLoad_arpStore_same s.PrivatePort.arpTable key.addr es
        | some value =>
            simp only [hra, egressTranslatePart_arp]
            rw [harp]
            exact arpLoad_arpStore_same s.PrivatePort.arpTable key.addr es
      · intro hcontra
        exact Option.noConfusion hcontra

/-- Witness for `C10_arp_learned`: the new flow 51:5000 → 99:80 with an empty
port pool — the packet is dropped, yet MAC 66 for host 51 stays learned. -/
theorem C10_arp_learned_witness :
    pktTcpNewFlow.l3 = L3.ipv4 51 99 6 (L4.tcp 5000 80 0x02) ∧
    tableLoad st0.PrivatePort.translationTable 6 ⟨51, 5000⟩ = Option.none ∧
    arpLoad (PrivateToPublicTranslation cfgExhausted pairCfg0 st0 pktTcpNewFlow 1050).state.PrivatePort.arpTable
      (Tuple.mk 51 5000).addr = some pktTcpNewFlow.etherSrc ∧
    (allocNewPort cfgExhausted st0.PublicPort.portmap 6 1050 = Option.none →
      (PrivateToPublicTranslation cfgExhausted pairCfg0 st0 pktTcpNewFlow 1050).dir = dirDROP) :=
  ⟨rfl, by decide,
    C10_arp_learned cfgExhausted pairCfg0 st0 pktTcpNewFlow 1050 51 99 6
      (L4.tcp 5000 80 0x02) ⟨51, 5000⟩ rfl (by decide) (by decide) (by decide)⟩

end NffNat
